import Mathlib

/-!
Shallow embedding of the sim front-end state stores and UI hooks, with
proofs of the specified properties.  JavaScript numbers are modelled as
rationals (the code only ever compares, adds, subtracts, minimises and
maximises them, so exact arithmetic is faithful).
-/

/-- JS Math.max over two numbers. -/
def jsMax (a b : ℚ) : ℚ := max a b

/-- JS Math.min over two numbers. -/
def jsMin (a b : ℚ) : ℚ := min a b

namespace PanelStore

/-! Embedding of src/apps/sim/stores/panel-new/store.ts. -/

def DEFAULT_PANEL_WIDTH : ℚ := 232

def MIN_PANEL_WIDTH : ℚ := 232

def MAX_PANEL_WIDTH : ℚ := 400

/-- The clamp performed by setPanelWidth:
Math.max(MIN_PANEL_WIDTH, Math.min(MAX_PANEL_WIDTH, width)). -/
def setPanelWidth (width : ℚ) : ℚ :=
  jsMax MIN_PANEL_WIDTH (jsMin MAX_PANEL_WIDTH width)

/-- Initial panelWidth of the store. -/
def initialPanelWidth : ℚ := DEFAULT_PANEL_WIDTH

end PanelStore

namespace PanelStoreAlt

/-! Embedding of the second panel store, src/unnamed/part_010. -/

def DEFAULT_PANEL_WIDTH : ℚ := 240

def MIN_PANEL_WIDTH : ℚ := 236

def MAX_PANEL_WIDTH : ℚ := 400

/-- The clamp performed by setPanelWidth of the part_010 store. -/
def setPanelWidth (width : ℚ) : ℚ :=
  jsMax MIN_PANEL_WIDTH (jsMin MAX_PANEL_WIDTH width)

/-- Initial panelWidth of the part_010 store. -/
def initialPanelWidth : ℚ := DEFAULT_PANEL_WIDTH

end PanelStoreAlt

namespace PanelResize

/-! Embedding of panel-new/hooks/use-panel-resize.ts. -/

def MIN_WIDTH : ℚ := 236

def MAX_WIDTH : ℚ := 400

/-- The width the mouse-move handler computes from the event:
window.innerWidth - e.clientX. -/
def newWidth (innerWidth clientX : ℚ) : ℚ := innerWidth - clientX

/-- The width forwarded to setPanelWidth by handleMouseMove, when any:
the guard is newWidth >= MIN_WIDTH && newWidth <= MAX_WIDTH. -/
def forwardedWidth (innerWidth clientX : ℚ) : Option ℚ :=
  let w := newWidth innerWidth clientX
  if MIN_WIDTH ≤ w ∧ w ≤ MAX_WIDTH then some w else none

end PanelResize

/-- C2: panel width clamping.  setPanelWidth stores exactly
max(232, min(400, w)); the stored value always lies in [232, 400]; the
clamp is idempotent; and the resize hook only forwards widths
w = innerWidth - clientX with 236 <= w <= 400. -/
theorem C2_panel_width_clamp (w innerWidth clientX : ℚ) :
    PanelStore.setPanelWidth w = max 232 (min 400 w) ∧
    232 ≤ PanelStore.setPanelWidth w ∧
    PanelStore.setPanelWidth w ≤ 400 ∧
    PanelStore.setPanelWidth (PanelStore.setPanelWidth w) = PanelStore.setPanelWidth w ∧
    (∀ v, PanelResize.forwardedWidth innerWidth clientX = some v →
      v = innerWidth - clientX ∧ 236 ≤ v ∧ v ≤ 400) := by
  have hlo : ∀ x : ℚ, 232 ≤ PanelStore.setPanelWidth x := by
    intro x
    simp [PanelStore.setPanelWidth, PanelStore.MIN_PANEL_WIDTH, jsMax, jsMin]
  have hhi : ∀ x : ℚ, PanelStore.setPanelWidth x ≤ 400 := by
    intro x
    simp only [PanelStore.setPanelWidth, PanelStore.MIN_PANEL_WIDTH,
      PanelStore.MAX_PANEL_WIDTH, jsMax, jsMin]
    rw [max_le_iff]
    exact ⟨by norm_num, min_le_left _ _⟩
  refine ⟨rfl, hlo w, hhi w, ?_, ?_⟩
  · have h : PanelStore.setPanelWidth (PanelStore.setPanelWidth w)
        = max 232 (min 400 (PanelStore.setPanelWidth w)) := rfl
    rw [h, min_eq_right (hhi w), max_eq_right (hlo w)]
  · intro v hv
    simp only [PanelResize.forwardedWidth, PanelResize.newWidth, PanelResize.MIN_WIDTH,
      PanelResize.MAX_WIDTH] at hv
    split at hv
    · rename_i h
      cases hv
      exact ⟨rfl, h.1, h.2⟩
    · cases hv

/-- Witness for C2 at w = 500, innerWidth = 1000, clientX = 700. -/
theorem C2_panel_width_clamp_witness :
    PanelStore.setPanelWidth 500 = max 232 (min 400 500) ∧
    232 ≤ PanelStore.setPanelWidth 500 ∧
    PanelStore.setPanelWidth 500 ≤ 400 ∧
    PanelStore.setPanelWidth (PanelStore.setPanelWidth 500) = PanelStore.setPanelWidth 500 ∧
    (∀ v, PanelResize.forwardedWidth 1000 700 = some v →
      v = 1000 - 700 ∧ 236 ≤ v ∧ v ≤ 400) :=
  C2_panel_width_clamp 500 1000 700

/-- C8 counterexample: the two panel stores disagree on input 232
(the panel-new store keeps 232, the part_010 store clamps up to 236) and
their initial widths differ (232 vs 240). -/
theorem C8_stores_not_equal :
    ¬ (PanelStore.setPanelWidth 232 = PanelStoreAlt.setPanelWidth 232 ∧
       PanelStore.initialPanelWidth = PanelStoreAlt.initialPanelWidth) := by
  intro h
  have h1 := h.1
  simp only [PanelStore.setPanelWidth, PanelStoreAlt.setPanelWidth, jsMax, jsMin,
    PanelStore.MIN_PANEL_WIDTH, PanelStore.MAX_PANEL_WIDTH,
    PanelStoreAlt.MIN_PANEL_WIDTH, PanelStoreAlt.MAX_PANEL_WIDTH] at h1
  norm_num at h1

/-- C8 amended: the two setPanelWidth implementations agree exactly on
inputs w with 236 <= w (both then store min(400, w) at least 236); for
w < 236 the panel-new store stores max(232, w) while the part_010 store
stores 236; and the initial widths are 232 and 240 respectively. -/
theorem C8_stores_amended (w : ℚ) :
    (236 ≤ w → PanelStore.setPanelWidth w = PanelStoreAlt.setPanelWidth w) ∧
    (w < 236 → PanelStore.setPanelWidth w = max 232 w ∧
               PanelStoreAlt.setPanelWidth w = 236) ∧
    PanelStore.initialPanelWidth = 232 ∧
    PanelStoreAlt.initialPanelWidth = 240 := by
  refine ⟨?_, ?_, rfl, rfl⟩
  · intro hw
    simp only [PanelStore.setPanelWidth, PanelStoreAlt.setPanelWidth, jsMax, jsMin,
      PanelStore.MIN_PANEL_WIDTH, PanelStore.MAX_PANEL_WIDTH,
      PanelStoreAlt.MIN_PANEL_WIDTH, PanelStoreAlt.MAX_PANEL_WIDTH]
    have h1 : (232 : ℚ) ≤ min 400 w := le_min (by norm_num) (by linarith)
    have h2 : (236 : ℚ) ≤ min 400 w := le_min (by norm_num) hw
    rw [max_eq_right h1, max_eq_right h2]
  · intro hw
    constructor
    · simp only [PanelStore.setPanelWidth, jsMax, jsMin,
        PanelStore.MIN_PANEL_WIDTH, PanelStore.MAX_PANEL_WIDTH]
      rw [min_eq_right (by linarith : w ≤ (400:ℚ))]
    · simp only [PanelStoreAlt.setPanelWidth, jsMax, jsMin,
        PanelStoreAlt.MIN_PANEL_WIDTH, PanelStoreAlt.MAX_PANEL_WIDTH]
      rw [min_eq_right (by linarith : w ≤ (400:ℚ))]
      exact max_eq_left (by linarith)

/-- Witness for C8 amended at w = 300. -/
theorem C8_stores_amended_witness :
    (236 ≤ (300:ℚ) → PanelStore.setPanelWidth 300 = PanelStoreAlt.setPanelWidth 300) ∧
    ((300:ℚ) < 236 → PanelStore.setPanelWidth 300 = max 232 300 ∧
               PanelStoreAlt.setPanelWidth 300 = 236) ∧
    PanelStore.initialPanelWidth = 232 ∧
    PanelStoreAlt.initialPanelWidth = 240 :=
  C8_stores_amended 300

namespace SidebarStore

/-! Embedding of src/apps/sim/stores/sidebar/store.ts (the triggers/blocks
height portion acted on by setTriggersHeight, setBlocksHeight and the
onRehydrateStorage repair). -/

def DEFAULT_TRIGGERS_HEIGHT : ℚ := 200

def DEFAULT_BLOCKS_HEIGHT : ℚ := 200

def MIN_HEIGHT : ℚ := 28

def MAX_HEIGHT : ℚ := 500

def HEADER_HEIGHT : ℚ := 28

/-- The height fields of the sidebar store state. -/
structure State where
  triggersHeight : ℚ
  blocksHeight : ℚ
  deriving DecidableEq

/-- The initial store state. -/
def initialState : State :=
  { triggersHeight := DEFAULT_TRIGGERS_HEIGHT, blocksHeight := DEFAULT_BLOCKS_HEIGHT }

/-- setTriggersHeight: clampedHeight =
Math.max(currentBlocksHeight + HEADER_HEIGHT, MIN_HEIGHT, Math.min(MAX_HEIGHT, height)). -/
def setTriggersHeight (s : State) (height : ℚ) : State :=
  let minAllowedHeight := s.blocksHeight + HEADER_HEIGHT
  let clampedHeight := jsMax (jsMax minAllowedHeight MIN_HEIGHT) (jsMin MAX_HEIGHT height)
  { s with triggersHeight := clampedHeight }

/-- setBlocksHeight: clampedHeight =
Math.max(MIN_HEIGHT, Math.min(currentTriggersHeight - HEADER_HEIGHT, MAX_HEIGHT, height)). -/
def setBlocksHeight (s : State) (height : ℚ) : State :=
  let maxAllowedHeight := s.triggersHeight - HEADER_HEIGHT
  let clampedHeight := jsMax MIN_HEIGHT (jsMin (jsMin maxAllowedHeight MAX_HEIGHT) height)
  { s with blocksHeight := clampedHeight }

/-- A store call: either setter with its numeric argument. -/
inductive Op where
  | setTriggers (height : ℚ)
  | setBlocks (height : ℚ)
  deriving DecidableEq

/-- One store call applied to a state. -/
def step (s : State) (op : Op) : State :=
  match op with
  | Op.setTriggers h => setTriggersHeight s h
  | Op.setBlocks h => setBlocksHeight s h

/-- The state after a sequence of store calls from the initial state. -/
def run (ops : List Op) : State :=
  ops.foldl step initialState

/-- The onRehydrateStorage repair applied to persisted heights (t, b):
if t < b + HEADER_HEIGHT, t becomes max(b + HEADER_HEIGHT, DEFAULT_TRIGGERS_HEIGHT);
then if b > t - HEADER_HEIGHT, b becomes
max(MIN_HEIGHT, min(t - HEADER_HEIGHT, DEFAULT_BLOCKS_HEIGHT)). -/
def rehydrateRepair (t b : ℚ) : State :=
  let minTriggersHeight := b + HEADER_HEIGHT
  let t1 := if t < minTriggersHeight then jsMax minTriggersHeight DEFAULT_TRIGGERS_HEIGHT else t
  let maxBlocksHeight := t1 - HEADER_HEIGHT
  let b1 := if b > maxBlocksHeight then jsMax MIN_HEIGHT (jsMin maxBlocksHeight DEFAULT_BLOCKS_HEIGHT) else b
  { triggersHeight := t1, blocksHeight := b1 }

/-- The claimed invariant: triggersHeight >= blocksHeight + HEADER_HEIGHT. -/
def heightInvariant (s : State) : Prop :=
  s.blocksHeight + HEADER_HEIGHT ≤ s.triggersHeight

instance (s : State) : Decidable (heightInvariant s) := by
  unfold heightInvariant
  infer_instance

/-- Auxiliary invariant that every reachable state satisfies:
blocksHeight >= MIN_HEIGHT and triggersHeight >= 2 * MIN_HEIGHT. -/
def auxInvariant (s : State) : Prop :=
  MIN_HEIGHT ≤ s.blocksHeight ∧ MIN_HEIGHT + HEADER_HEIGHT ≤ s.triggersHeight

theorem auxInvariant_initial : auxInvariant initialState := by
  constructor <;> norm_num [initialState, MIN_HEIGHT, HEADER_HEIGHT,
    DEFAULT_TRIGGERS_HEIGHT, DEFAULT_BLOCKS_HEIGHT]

theorem auxInvariant_step (s : State) (op : Op) (h : auxInvariant s) :
    auxInvariant (step s op) := by
  obtain ⟨hb, ht⟩ := h
  cases op with
  | setTriggers x =>
    refine ⟨hb, ?_⟩
    simp only [step, setTriggersHeight, jsMax, jsMin]
    have : s.blocksHeight + HEADER_HEIGHT ≤ max (s.blocksHeight + HEADER_HEIGHT) MIN_HEIGHT :=
      le_max_left _ _
    calc MIN_HEIGHT + HEADER_HEIGHT
        ≤ s.blocksHeight + HEADER_HEIGHT := by linarith
      _ ≤ max (s.blocksHeight + HEADER_HEIGHT) MIN_HEIGHT := le_max_left _ _
      _ ≤ _ := le_max_left _ _
  | setBlocks x =>
    refine ⟨?_, ht⟩
    simp only [step, setBlocksHeight, jsMax, jsMin]
    exact le_max_left _ _

theorem auxInvariant_run (ops : List Op) : auxInvariant (run ops) := by
  suffices h : ∀ (l : List Op) (s : State), auxInvariant s → auxInvariant (l.foldl step s) by
    exact h ops initialState auxInvariant_initial
  intro l
  induction l with
  | nil => intro s hs; exact hs
  | cons op t ih =>
    intro s hs
    exact ih (step s op) (auxInvariant_step s op hs)

theorem heightInvariant_step (s : State) (op : Op) (h : auxInvariant s) :
    heightInvariant (step s op) := by
  obtain ⟨hb, ht⟩ := h
  cases op with
  | setTriggers x =>
    simp only [step, setTriggersHeight, heightInvariant, jsMax, jsMin]
    calc s.blocksHeight + HEADER_HEIGHT
        ≤ max (s.blocksHeight + HEADER_HEIGHT) MIN_HEIGHT := le_max_left _ _
      _ ≤ _ := le_max_left _ _
  | setBlocks x =>
    simp only [step, setBlocksHeight, heightInvariant, jsMax, jsMin]
    have h1 : min (min (s.triggersHeight - HEADER_HEIGHT) MAX_HEIGHT) x
        ≤ s.triggersHeight - HEADER_HEIGHT :=
      le_trans (min_le_left _ _) (min_le_left _ _)
    have h2 : max MIN_HEIGHT (min (min (s.triggersHeight - HEADER_HEIGHT) MAX_HEIGHT) x)
        ≤ s.triggersHeight - HEADER_HEIGHT :=
      max_le (by linarith) h1
    linarith

theorem heightInvariant_rehydrate (t b : ℚ) : heightInvariant (rehydrateRepair t b) := by
  simp only [rehydrateRepair, heightInvariant, jsMax, jsMin]
  by_cases h1 : t < b + HEADER_HEIGHT
  · simp only [if_pos h1]
    have ht1 : b + HEADER_HEIGHT ≤ max (b + HEADER_HEIGHT) DEFAULT_TRIGGERS_HEIGHT :=
      le_max_left _ _
    have hnb : ¬ (b > max (b + HEADER_HEIGHT) DEFAULT_TRIGGERS_HEIGHT - HEADER_HEIGHT) := by
      push_neg
      linarith
    simp only [if_neg hnb]
    linarith
  · simp only [if_neg h1]
    push_neg at h1
    have hnb : ¬ (b > t - HEADER_HEIGHT) := by
      push_neg
      linarith
    simp only [if_neg hnb]
    linarith

end SidebarStore

/-- C1 counterexample: the initial sidebar state (triggersHeight = 200,
blocksHeight = 200) is reachable by the empty call sequence but violates
triggersHeight >= blocksHeight + HEADER_HEIGHT (200 < 200 + 28). -/
theorem C1_initial_state_violates :
    SidebarStore.run [] = SidebarStore.initialState ∧
    ¬ SidebarStore.heightInvariant SidebarStore.initialState := by
  refine ⟨rfl, ?_⟩
  intro h
  simp only [SidebarStore.heightInvariant, SidebarStore.initialState, SidebarStore.HEADER_HEIGHT,
    SidebarStore.DEFAULT_TRIGGERS_HEIGHT, SidebarStore.DEFAULT_BLOCKS_HEIGHT] at h
  norm_num at h

/-- C1 amended: the constraint triggersHeight >= blocksHeight + HEADER_HEIGHT
holds for every state reached from the initial state by a NON-EMPTY sequence
of setTriggersHeight / setBlocksHeight calls with arbitrary numeric
arguments, and for every state produced by the onRehydrateStorage repair
from arbitrary persisted numbers; the initial state itself (200, 200)
is the sole reachable exception. -/
theorem C1_height_invariant_amended :
    (∀ ops : List SidebarStore.Op, ops ≠ [] →
        SidebarStore.heightInvariant (SidebarStore.run ops)) ∧
    (∀ t b : ℚ, SidebarStore.heightInvariant (SidebarStore.rehydrateRepair t b)) := by
  constructor
  · intro ops hne
    have hsplit : ops = ops.dropLast ++ [ops.getLast hne] := (List.dropLast_append_getLast hne).symm
    rw [hsplit]
    unfold SidebarStore.run
    rw [List.foldl_append]
    exact SidebarStore.heightInvariant_step _ _ (SidebarStore.auxInvariant_run ops.dropLast)
  · exact SidebarStore.heightInvariant_rehydrate

/-- Witness for C1 amended: a single setTriggersHeight(300) call and the
repair of persisted (100, 90). -/
theorem C1_height_invariant_amended_witness :
    SidebarStore.heightInvariant (SidebarStore.run [SidebarStore.Op.setTriggers 300]) ∧
    SidebarStore.heightInvariant (SidebarStore.rehydrateRepair 100 90) :=
  ⟨C1_height_invariant_amended.1 [SidebarStore.Op.setTriggers 300] (by simp),
   C1_height_invariant_amended.2 100 90⟩

namespace ExecUtils

/-! Embedding of persistExecutionLogs from
src/apps/sim/app/.../utils/workflow-execution-utils.ts.  The fallible
steps (buildTraceSpans and the POST fetch) are modelled by an
environment recording their outcomes; the result enrichment is pure. -/

/-- A fetch response, reduced to the field the code inspects. -/
structure Response where
  ok : Bool
  deriving DecidableEq

/-- Outcomes of the fallible steps inside one persistExecutionLogs call. -/
structure PersistEnv where
  /-- Outcome of buildTraceSpans(result): a value or a thrown error. -/
  buildTraceSpansResult : Except String Unit
  /-- Outcome of the POST fetch: a response or a thrown network error. -/
  fetchResult : Except String Response

/-- The try-block of persistExecutionLogs: build trace spans, enrich the
result, POST it, throw on a non-ok response, and return executionId. -/
def persistBody {α β : Type} (executionId : String) (result : α)
    (streamContent : Option String) (enrich : α → Option String → β)
    (env : PersistEnv) : Except String String := do
  let _ ← env.buildTraceSpansResult
  let _enrichedResult := enrich result streamContent
  let response ← env.fetchResult
  if response.ok then
    pure executionId
  else
    Except.error "Failed to persist logs"

/-- persistExecutionLogs: the try-block with the catch that logs the error
and returns executionId. -/
def persistExecutionLogs {α β : Type} (activeWorkflowId executionId : String)
    (result : α) (streamContent : Option String) (enrich : α → Option String → β)
    (env : PersistEnv) : String :=
  let _ := activeWorkflowId
  match persistBody executionId result streamContent enrich env with
  | Except.ok v => v
  | Except.error _ => executionId

end ExecUtils

/-- C4: persistExecutionLogs is total and always resolves to its
executionId argument, whether the trace-span build throws, the fetch
throws, the response is non-ok, or everything succeeds. -/
theorem C4_persist_returns_execution_id {α β : Type}
    (activeWorkflowId executionId : String) (result : α)
    (streamContent : Option String) (enrich : α → Option String → β)
    (env : ExecUtils.PersistEnv) :
    ExecUtils.persistExecutionLogs activeWorkflowId executionId result
      streamContent enrich env = executionId := by
  unfold ExecUtils.persistExecutionLogs ExecUtils.persistBody
  cases env with
  | mk build fetchRes =>
    cases build with
    | error e => rfl
    | ok u =>
      cases fetchRes with
      | error e => rfl
      | ok resp =>
        cases resp with
        | mk okFlag =>
          cases okFlag <;> rfl

namespace TextareaResize

/-! Embedding of the auto-resize effect of
use-textarea-auto-resize.ts (the effect that runs on message change). -/

def MAX_TEXTAREA_HEIGHT : ℚ := 120

/-- The overflow-y values the effect assigns. -/
inductive OverflowY where
  | auto
  | hidden
  deriving DecidableEq

/-- Styles the effect writes to an element. -/
structure ElementStyles where
  height : ℚ
  overflowY : OverflowY
  deriving DecidableEq

/-- Result of one run of the effect: styles for the textarea and, when the
overlay element is present, for the overlay. -/
structure ResizeOutcome where
  textarea : ElementStyles
  overlay : Option ElementStyles
  deriving DecidableEq

/-- The effect body: nextHeight = Math.min(scrollHeight, MAX_TEXTAREA_HEIGHT);
overflowY = scrollHeight > MAX_TEXTAREA_HEIGHT ? auto : hidden; the overlay
(when present) receives the same height and overflow values. -/
def autoResizeEffect (scrollHeight : ℚ) (overlayPresent : Bool) : ResizeOutcome :=
  let nextHeight := jsMin scrollHeight MAX_TEXTAREA_HEIGHT
  let ov := if scrollHeight > MAX_TEXTAREA_HEIGHT then OverflowY.auto else OverflowY.hidden
  { textarea := { height := nextHeight, overflowY := ov },
    overlay := if overlayPresent
               then some { height := nextHeight, overflowY := ov }
               else none }

end TextareaResize

/-- C10: after a message change the textarea height is min(scrollHeight, 120),
overflow-y is auto exactly when scrollHeight > 120 and hidden otherwise, and
a present overlay receives the same height and overflow-y. -/
theorem C10_textarea_auto_resize (scrollHeight : ℚ) (overlayPresent : Bool) :
    (TextareaResize.autoResizeEffect scrollHeight overlayPresent).textarea.height
      = min scrollHeight 120 ∧
    ((TextareaResize.autoResizeEffect scrollHeight overlayPresent).textarea.overflowY
      = TextareaResize.OverflowY.auto ↔ 120 < scrollHeight) ∧
    ((TextareaResize.autoResizeEffect scrollHeight overlayPresent).textarea.overflowY
      = TextareaResize.OverflowY.hidden ↔ scrollHeight ≤ 120) ∧
    (overlayPresent = true →
      (TextareaResize.autoResizeEffect scrollHeight overlayPresent).overlay
        = some (TextareaResize.autoResizeEffect scrollHeight overlayPresent).textarea) := by
  refine ⟨rfl, ?_, ?_, ?_⟩
  · simp only [TextareaResize.autoResizeEffect, TextareaResize.MAX_TEXTAREA_HEIGHT]
    by_cases h : (120 : ℚ) < scrollHeight
    · simp [h]
    · simp [h]
  · simp only [TextareaResize.autoResizeEffect, TextareaResize.MAX_TEXTAREA_HEIGHT]
    by_cases h : (120 : ℚ) < scrollHeight
    · simp [h, not_le.mpr h]
    · simp [h, not_lt.mp h]
  · intro hp
    simp only [TextareaResize.autoResizeEffect, hp, if_true]

/-- Witness for C10 at scrollHeight = 200 with the overlay present. -/
theorem C10_textarea_auto_resize_witness :
    (TextareaResize.autoResizeEffect 200 true).textarea.height = min 200 120 ∧
    ((TextareaResize.autoResizeEffect 200 true).textarea.overflowY
      = TextareaResize.OverflowY.auto ↔ (120:ℚ) < 200) ∧
    ((TextareaResize.autoResizeEffect 200 true).textarea.overflowY
      = TextareaResize.OverflowY.hidden ↔ (200:ℚ) ≤ 120) ∧
    (true = true →
      (TextareaResize.autoResizeEffect 200 true).overlay
        = some (TextareaResize.autoResizeEffect 200 true).textarea) :=
  C10_textarea_auto_resize 200 true

namespace FileAttachments

/-! Embedding of the attachedFiles state transitions performed by
processFiles in use-file-attachments.ts for a single file. -/

/-- The AttachedFile record (the source field named type is rendered
ftype, type being reserved in Lean). -/
structure AttachedFile where
  id : String
  name : String
  size : ℚ
  ftype : String
  path : String
  key : Option String
  uploading : Bool
  previewUrl : Option String
  deriving DecidableEq

/-- The temporary entry built for a file before its upload starts:
path empty, no key, uploading = true. -/
def mkTempFile (id name : String) (size : ℚ) (ftype : String)
    (previewUrl : Option String) : AttachedFile :=
  { id := id, name := name, size := size, ftype := ftype,
    path := "", key := none, uploading := true, previewUrl := previewUrl }

/-- Outcome of the presigned-URL request followed by the PUT upload:
either both succeed, yielding the fileInfo path and key, or some step
fails (non-ok response or thrown error). -/
inductive UploadOutcome where
  | success (path key : String)
  | failure
  deriving DecidableEq

/-- The attachedFiles transitions processFiles performs for one image
file: append the temporary entry; on success map it to an entry with
path and key set and uploading = false; on failure filter it out. -/
def processOneFile (prev : List AttachedFile) (tempFile : AttachedFile)
    (outcome : UploadOutcome) : List AttachedFile :=
  let afterAppend := prev ++ [tempFile]
  match outcome with
  | UploadOutcome.success p k =>
      afterAppend.map (fun f =>
        if f.id == tempFile.id
        then { f with path := p, key := some k, uploading := false }
        else f)
  | UploadOutcome.failure =>
      afterAppend.filter (fun f => f.id != tempFile.id)

theorem filter_id_fresh (l : List AttachedFile) (i : String)
    (hfresh : ∀ f ∈ l, f.id ≠ i) : l.filter (fun f => f.id != i) = l := by
  induction l with
  | nil => rfl
  | cons a t ih =>
    have ha : a.id ≠ i := hfresh a (List.mem_cons_self a t)
    have ht : ∀ f ∈ t, f.id ≠ i := fun f hf => hfresh f (List.mem_cons_of_mem a hf)
    simp only [List.filter_cons]
    rw [if_pos (by simp [ha]), ih ht]

theorem map_update_fresh (l : List AttachedFile) (i p k : String)
    (hfresh : ∀ f ∈ l, f.id ≠ i) :
    l.map (fun f =>
      if f.id == i
      then { f with path := p, key := some k, uploading := false }
      else f) = l := by
  induction l with
  | nil => rfl
  | cons a t ih =>
    have ha : a.id ≠ i := hfresh a (List.mem_cons_self a t)
    have ht : ∀ f ∈ t, f.id ≠ i := fun f hf => hfresh f (List.mem_cons_of_mem a hf)
    simp only [List.map_cons]
    rw [if_neg (by simp [ha]), ih ht]

end FileAttachments

/-- C3: optimistic rollback on upload failure.  For a file whose fresh
temporary id does not occur among the already attached files: the
temporary entry carries uploading = true and the empty path; if the
upload fails the final list equals the list before the file was
processed; if it succeeds the final list is the previous list with the
temporary entry appended, updated in place with path and key set and
uploading = false, all other entries untouched. -/
theorem C3_upload_rollback (prev : List FileAttachments.AttachedFile)
    (i n ty p k : String) (sz : ℚ) (pu : Option String)
    (hfresh : ∀ f ∈ prev, f.id ≠ i) :
    (FileAttachments.mkTempFile i n sz ty pu).uploading = true ∧
    (FileAttachments.mkTempFile i n sz ty pu).path = "" ∧
    FileAttachments.processOneFile prev (FileAttachments.mkTempFile i n sz ty pu)
      FileAttachments.UploadOutcome.failure = prev ∧
    FileAttachments.processOneFile prev (FileAttachments.mkTempFile i n sz ty pu)
      (FileAttachments.UploadOutcome.success p k) =
      prev ++ [{ FileAttachments.mkTempFile i n sz ty pu with
                 path := p, key := some k, uploading := false }] := by
  refine ⟨rfl, rfl, ?_, ?_⟩
  · simp only [FileAttachments.processOneFile, FileAttachments.mkTempFile,
      List.filter_append]
    rw [FileAttachments.filter_id_fresh prev i hfresh]
    simp
  · simp only [FileAttachments.processOneFile, FileAttachments.mkTempFile,
      List.map_append]
    rw [FileAttachments.map_update_fresh prev i p k hfresh]
    simp

/-- Witness for C3: one previously attached file with id "a", new file
with fresh id "b". -/
theorem C3_upload_rollback_witness :
    ((FileAttachments.mkTempFile "b" "pic.png" 10 "image/png" none).uploading = true ∧
    (FileAttachments.mkTempFile "b" "pic.png" 10 "image/png" none).path = "" ∧
    FileAttachments.processOneFile [FileAttachments.mkTempFile "a" "x.png" 5 "image/png" none]
      (FileAttachments.mkTempFile "b" "pic.png" 10 "image/png" none)
      FileAttachments.UploadOutcome.failure
      = [FileAttachments.mkTempFile "a" "x.png" 5 "image/png" none] ∧
    FileAttachments.processOneFile [FileAttachments.mkTempFile "a" "x.png" 5 "image/png" none]
      (FileAttachments.mkTempFile "b" "pic.png" 10 "image/png" none)
      (FileAttachments.UploadOutcome.success "/files/p" "key1")
      = [FileAttachments.mkTempFile "a" "x.png" 5 "image/png" none]
        ++ [{ FileAttachments.mkTempFile "b" "pic.png" 10 "image/png" none with
              path := "/files/p", key := some "key1", uploading := false }]) :=
  C3_upload_rollback [FileAttachments.mkTempFile "a" "x.png" 5 "image/png" none]
    "b" "pic.png" "image/png" "/files/p" "key1" 10 none
    (by intro f hf; simp only [List.mem_singleton] at hf; subst hf; decide)

namespace DragDrop

/-! Embedding of handleFolderMove / handleFolderDrop from
use-drag-drop.ts.  getFolderPath lives in the folder store, outside this
excerpt; it is passed as a function returning the ancestor-path ids.
The API calls made are recorded as a list. -/

inductive ApiCall where
  | updateWorkflow (workflowId : String) (folderId : Option String)
  | updateFolder (folderId : String) (parentId : Option String)
  deriving DecidableEq

/-- handleFolderMove: no call when the target appears in the dragged
folder's ancestor path, otherwise one updateFolderAPI call. -/
def handleFolderMove (getFolderPath : String → List String)
    (draggedFolderId : String) (targetFolderId : Option String) : List ApiCall :=
  let draggedFolderPath := getFolderPath draggedFolderId
  let intoOwnDescendant :=
    match targetFolderId with
    | some t => draggedFolderPath.any (fun ancestorId => ancestorId == t)
    | none => false
  if intoOwnDescendant then []
  else [ApiCall.updateFolder draggedFolderId targetFolderId]

/-- handleFolderDrop: a workflow-ids payload takes the workflow branch;
otherwise a folder-id payload is forwarded to handleFolderMove unless the
target is the dragged folder itself. -/
def handleFolderDrop (getFolderPath : String → List String)
    (workflowIdsData : Option (List String)) (folderIdData : Option String)
    (targetFolderId : Option String) : List ApiCall :=
  match workflowIdsData with
  | some workflowIds =>
      workflowIds.map (fun workflowId => ApiCall.updateWorkflow workflowId targetFolderId)
  | none =>
      match folderIdData with
      | some folderId =>
          if targetFolderId ≠ some folderId
          then handleFolderMove getFolderPath folderId targetFolderId
          else []
      | none => []

end DragDrop

/-- C9: folder self/descendant move guard.  For a drop event carrying
folder-id F (and no workflow ids) onto target T: if T = F, or T is a
folder on the ancestor path of F, no updateFolderAPI call is made;
otherwise exactly one updateFolderAPI(F, parentId := T) call is made. -/
theorem C9_folder_move_guard (getFolderPath : String → List String)
    (folderId : String) (targetFolderId : Option String) :
    (targetFolderId = some folderId →
      DragDrop.handleFolderDrop getFolderPath none (some folderId) targetFolderId = []) ∧
    (∀ t, targetFolderId = some t → t ∈ getFolderPath folderId →
      DragDrop.handleFolderDrop getFolderPath none (some folderId) targetFolderId = []) ∧
    (targetFolderId ≠ some folderId →
      (∀ t, targetFolderId = some t → t ∉ getFolderPath folderId) →
      DragDrop.handleFolderDrop getFolderPath none (some folderId) targetFolderId =
        [DragDrop.ApiCall.updateFolder folderId targetFolderId]) := by
  refine ⟨?_, ?_, ?_⟩
  · intro heq
    simp [DragDrop.handleFolderDrop, heq]
  · intro t ht hmem
    by_cases heq : targetFolderId = some folderId
    · simp [DragDrop.handleFolderDrop, heq]
    · simp only [DragDrop.handleFolderDrop, if_pos heq]
      subst ht
      simp only [DragDrop.handleFolderMove]
      rw [if_pos]
      rw [List.any_eq_true]
      exact ⟨t, hmem, by simp⟩
  · intro hne hpath
    cases targetFolderId with
    | none => rfl
    | some t =>
      have ht : t ∉ getFolderPath folderId := hpath t rfl
      have hany : (getFolderPath folderId).any (fun ancestorId => ancestorId == t) = false := by
        cases hb : (getFolderPath folderId).any (fun ancestorId => ancestorId == t) with
        | false => rfl
        | true =>
          exfalso
          obtain ⟨a, ha, hbeq⟩ := List.any_eq_true.mp hb
          rw [beq_iff_eq] at hbeq
          subst hbeq
          exact ht ha
      simp [DragDrop.handleFolderDrop, DragDrop.handleFolderMove, hne, hany]

/-- Witness for C9: folder "f" with ancestor path ["r", "p"], dropped on
target "q" (not itself, not on its path). -/
theorem C9_folder_move_guard_witness :
    ((some "q" : Option String) = some "f" →
      DragDrop.handleFolderDrop (fun _ => ["r", "p"]) none (some "f") (some "q") = []) ∧
    (∀ t, (some "q" : Option String) = some t → t ∈ ["r", "p"] →
      DragDrop.handleFolderDrop (fun _ => ["r", "p"]) none (some "f") (some "q") = []) ∧
    ((some "q" : Option String) ≠ some "f" →
      (∀ t, (some "q" : Option String) = some t → t ∉ ["r", "p"]) →
      DragDrop.handleFolderDrop (fun _ => ["r", "p"]) none (some "f") (some "q") =
        [DragDrop.ApiCall.updateFolder "f" (some "q")]) :=
  C9_folder_move_guard (fun _ => ["r", "p"]) "f" (some "q")

namespace Mention

/-! Embedding of the copilot mention menu data and its aggregated-search
and submenu-navigation logic (src/unnamed/part_001 useMentionKeyboard and
the MentionMenuPortal component). -/

/-- JS s.toLowerCase(), character by character. -/
def jsToLower (s : String) : String := String.mk (s.data.map Char.toLower)

/-- Whether the first character list starts the second. -/
def charsStartWith : List Char → List Char → Bool
  | [], _ => true
  | _ :: _, [] => false
  | a :: as, b :: bs => a == b && charsStartWith as bs

/-- Whether the second character list occurs inside the first. -/
def charsContain (needle : List Char) : List Char → Bool
  | [] => needle.isEmpty
  | b :: bs => charsStartWith needle (b :: bs) || charsContain needle bs

/-- JS s.includes(sub): substring containment. -/
def jsIncludes (s sub : String) : Bool := charsContain sub.data s.data

/-- JS v || d on an optional string: null/undefined and the empty string
are falsy and yield the fallback. -/
def jsOrStr (v : Option String) (d : String) : String :=
  match v with
  | none => d
  | some s => if s = "" then d else s

/-- Chat item: { id, title: string | null }. -/
structure ChatItem where
  id : String
  title : Option String
  deriving DecidableEq

/-- Workflow item: { id, name }. -/
structure WorkflowItem where
  id : String
  name : Option String
  deriving DecidableEq

/-- Knowledge base item: { id, name }. -/
structure KnowledgeItem where
  id : String
  name : Option String
  deriving DecidableEq

/-- Block item (blocksList and workflowBlocks): { id, name }. -/
structure BlockItem where
  id : String
  name : Option String
  deriving DecidableEq

/-- Template item: { id, name }. -/
structure TemplateItem where
  id : String
  name : Option String
  deriving DecidableEq

/-- Log item: { id, workflowName, trigger }. -/
structure LogItem where
  id : String
  workflowName : Option String
  trigger : Option String
  deriving DecidableEq

/-- The lists exposed by useMentionData. -/
structure MentionData where
  pastChats : List ChatItem
  workflows : List WorkflowItem
  knowledgeBases : List KnowledgeItem
  blocksList : List BlockItem
  workflowBlocks : List BlockItem
  templatesList : List TemplateItem
  logsList : List LogItem
  deriving DecidableEq

/-- MENTION_OPTIONS from the constants module (src/unnamed/part_002). -/
def MENTION_OPTIONS : List String :=
  ["Chats", "Workflows", "Workflow Blocks", "Blocks", "Knowledge", "Docs",
   "Templates", "Logs"]

/-- The type tag attached to an aggregated entry. -/
inductive AggKind where
  | workflowBlocks
  | workflows
  | blocks
  | knowledge
  | templates
  | chats
  | logs
  deriving DecidableEq

/-- The payload of an aggregated entry. -/
inductive AggValue where
  | chat (c : ChatItem)
  | workflow (w : WorkflowItem)
  | knowledge (k : KnowledgeItem)
  | block (b : BlockItem)
  | template (t : TemplateItem)
  | log (l : LogItem)
  deriving DecidableEq

/-- An aggregated entry as built in handleEnterSelection: { type, value }. -/
structure EnterAggItem where
  ty : AggKind
  value : AggValue
  deriving DecidableEq

/-- An aggregated entry as built in MentionMenuPortal: { type, id, value }. -/
structure PortalAggItem where
  ty : AggKind
  id : String
  value : AggValue
  deriving DecidableEq

/-- The aggregated candidate list of the Enter-key handler
(handleEnterSelection in part_001), built from the already-lowercased
active mention query mainQ = (active?.query || '').toLowerCase(). -/
def enterAggregated (d : MentionData) (query : Option String) : List EnterAggItem :=
  let mainQ := jsToLower (jsOrStr query "")
  (d.workflowBlocks.filter
      (fun b => jsIncludes (jsToLower (jsOrStr b.name b.id)) mainQ)).map
    (fun b => EnterAggItem.mk AggKind.workflowBlocks (AggValue.block b)) ++
  (d.workflows.filter
      (fun w => jsIncludes (jsToLower (jsOrStr w.name "Untitled Workflow")) mainQ)).map
    (fun w => EnterAggItem.mk AggKind.workflows (AggValue.workflow w)) ++
  (d.blocksList.filter
      (fun b => jsIncludes (jsToLower (jsOrStr b.name b.id)) mainQ)).map
    (fun b => EnterAggItem.mk AggKind.blocks (AggValue.block b)) ++
  (d.knowledgeBases.filter
      (fun k => jsIncludes (jsToLower (jsOrStr k.name "Untitled")) mainQ)).map
    (fun k => EnterAggItem.mk AggKind.knowledge (AggValue.knowledge k)) ++
  (d.templatesList.filter
      (fun t => jsIncludes (jsToLower (jsOrStr t.name "Untitled Template")) mainQ)).map
    (fun t => EnterAggItem.mk AggKind.templates (AggValue.template t)) ++
  (d.pastChats.filter
      (fun c => jsIncludes (jsToLower (jsOrStr c.title "Untitled Chat")) mainQ)).map
    (fun c => EnterAggItem.mk AggKind.chats (AggValue.chat c)) ++
  (d.logsList.filter
      (fun l => jsIncludes (jsToLower (jsOrStr l.workflowName "Untitled Workflow")) mainQ)).map
    (fun l => EnterAggItem.mk AggKind.logs (AggValue.log l))

/-- The aggregated list rendered by MentionMenuPortal, built from
q = (getActiveMentionQueryAtPosition(...)?.query || '').toLowerCase(). -/
def portalAggregated (d : MentionData) (query : Option String) : List PortalAggItem :=
  let q := jsToLower (jsOrStr query "")
  (d.workflowBlocks.filter
      (fun b => jsIncludes (jsToLower (jsOrStr b.name b.id)) q)).map
    (fun b => PortalAggItem.mk AggKind.workflowBlocks b.id (AggValue.block b)) ++
  (d.workflows.filter
      (fun w => jsIncludes (jsToLower (jsOrStr w.name "Untitled Workflow")) q)).map
    (fun w => PortalAggItem.mk AggKind.workflows w.id (AggValue.workflow w)) ++
  (d.blocksList.filter
      (fun b => jsIncludes (jsToLower (jsOrStr b.name b.id)) q)).map
    (fun b => PortalAggItem.mk AggKind.blocks b.id (AggValue.block b)) ++
  (d.knowledgeBases.filter
      (fun k => jsIncludes (jsToLower (jsOrStr k.name "Untitled")) q)).map
    (fun k => PortalAggItem.mk AggKind.knowledge k.id (AggValue.knowledge k)) ++
  (d.templatesList.filter
      (fun t => jsIncludes (jsToLower (jsOrStr t.name "Untitled Template")) q)).map
    (fun t => PortalAggItem.mk AggKind.templates t.id (AggValue.template t)) ++
  (d.pastChats.filter
      (fun c => jsIncludes (jsToLower (jsOrStr c.title "Untitled Chat")) q)).map
    (fun c => PortalAggItem.mk AggKind.chats c.id (AggValue.chat c)) ++
  (d.logsList.filter
      (fun l => jsIncludes (jsToLower (jsOrStr l.workflowName "Untitled Workflow")) q)).map
    (fun l => PortalAggItem.mk AggKind.logs l.id (AggValue.log l))

/-- MENTION_OPTIONS filtered by the lowercased active query, as both the
keyboard handler and the portal compute it. -/
def filteredMainOptions (query : Option String) : List String :=
  let q := jsToLower (jsOrStr query "")
  MENTION_OPTIONS.filter (fun label => jsIncludes (jsToLower label) q)

end Mention

/-- C6: whenever the active mention query is non-empty and no top-level
mention option contains it case-insensitively, the aggregated candidate
list used by the Enter-key handler equals, element for element and in the
same order (type tag and payload), the aggregated list rendered by
MentionMenuPortal. -/
theorem C6_aggregated_lists_agree (d : Mention.MentionData) (query : Option String)
    (hne : Mention.jsToLower (Mention.jsOrStr query "") ≠ "")
    (hnomain : Mention.filteredMainOptions query = []) :
    (Mention.portalAggregated d query).map
        (fun x => Mention.EnterAggItem.mk x.ty x.value) =
      Mention.enterAggregated d query := by
  simp [Mention.portalAggregated, Mention.enterAggregated,
    List.map_append, List.map_map, Function.comp_def]

/-- Witness for C6: query "zz" over data containing one workflow named
"fizzy" (no top-level option contains "zz"). -/
theorem C6_aggregated_lists_agree_witness :
    (Mention.portalAggregated
        (Mention.MentionData.mk [] [Mention.WorkflowItem.mk "w1" (some "fizzy")] [] [] [] [] [])
        (some "zz")).map
        (fun x => Mention.EnterAggItem.mk x.ty x.value) =
      Mention.enterAggregated
        (Mention.MentionData.mk [] [Mention.WorkflowItem.mk "w1" (some "fizzy")] [] [] [] [] [])
        (some "zz") :=
  C6_aggregated_lists_agree
    (Mention.MentionData.mk [] [Mention.WorkflowItem.mk "w1" (some "fizzy")] [] [] [] [] [])
    (some "zz") (by decide) (by decide)

namespace Mention

/-- The seven submenus of the mention menu. -/
inductive SubmenuKind where
  | chats
  | workflows
  | knowledge
  | blocks
  | workflowBlocks
  | templates
  | logs
  deriving DecidableEq

/-- The display string the Logs submenu filter matches against:
[l.workflowName, l.trigger || ''].join(' ') (Array.join renders null as
the empty string). -/
def logJoined (l : LogItem) : String :=
  (match l.workflowName with
   | none => ""
   | some s => s) ++ " " ++ jsOrStr l.trigger ""

/-- The query-filtered item count of a submenu, with
q = getSubmenuQuery().toLowerCase() and each submenu's own display
fallback, exactly as in each branch of handleArrowNavigation. -/
def submenuFilteredCount (k : SubmenuKind) (d : MentionData)
    (submenuQuery : String) : Nat :=
  let q := jsToLower submenuQuery
  match k with
  | SubmenuKind.chats =>
      (d.pastChats.filter
        (fun c => jsIncludes (jsToLower (jsOrStr c.title "Untitled Chat")) q)).length
  | SubmenuKind.workflows =>
      (d.workflows.filter
        (fun w => jsIncludes (jsToLower (jsOrStr w.name "Untitled Workflow")) q)).length
  | SubmenuKind.knowledge =>
      (d.knowledgeBases.filter
        (fun kb => jsIncludes (jsToLower (jsOrStr kb.name "Untitled")) q)).length
  | SubmenuKind.blocks =>
      (d.blocksList.filter
        (fun b => jsIncludes (jsToLower (jsOrStr b.name b.id)) q)).length
  | SubmenuKind.workflowBlocks =>
      (d.workflowBlocks.filter
        (fun b => jsIncludes (jsToLower (jsOrStr b.name b.id)) q)).length
  | SubmenuKind.templates =>
      (d.templatesList.filter
        (fun t => jsIncludes (jsToLower (jsOrStr t.name "Untitled Template")) q)).length
  | SubmenuKind.logs =>
      (d.logsList.filter
        (fun l => jsIncludes (jsToLower (logJoined l)) q)).length

/-- The two keys handled by handleArrowNavigation. -/
inductive ArrowKey where
  | down
  | up
  deriving DecidableEq

/-- The setSubmenuActiveIndex updater body shared by every submenu branch:
last = Math.max(0, filtered.length - 1); 0 when the filtered list is
empty; otherwise ArrowDown wraps forward and ArrowUp wraps backward. -/
def submenuArrowNext (key : ArrowKey) (filteredLength : Nat) (prev : ℤ) : ℤ :=
  let last : ℤ := max 0 ((filteredLength : ℤ) - 1)
  if filteredLength = 0 then 0
  else
    match key with
    | ArrowKey.down => if prev ≥ last then 0 else prev + 1
    | ArrowKey.up => if prev ≤ 0 then last else prev - 1

/-- The arrow-key handler restricted to an open submenu: compute that
submenu's query-filtered list and step the active index. -/
def handleSubmenuArrow (k : SubmenuKind) (d : MentionData) (submenuQuery : String)
    (key : ArrowKey) (prev : ℤ) : ℤ :=
  submenuArrowNext key (submenuFilteredCount k d submenuQuery) prev

end Mention

/-- C7: mention submenu arrow navigation wraps around.  For every open
submenu whose query-filtered list has length n >= 1 and active index i
with 0 <= i <= n-1, ArrowDown yields i+1 when i < n-1 and 0 otherwise,
ArrowUp yields i-1 when i > 0 and n-1 otherwise; with an empty filtered
list the index becomes 0 for either key. -/
theorem C7_submenu_arrow_wraps (k : Mention.SubmenuKind) (d : Mention.MentionData)
    (q : String) (key : Mention.ArrowKey) (i : ℤ) :
    (1 ≤ Mention.submenuFilteredCount k d q → 0 ≤ i →
      i ≤ (Mention.submenuFilteredCount k d q : ℤ) - 1 →
      (Mention.handleSubmenuArrow k d q Mention.ArrowKey.down i =
        if i < (Mention.submenuFilteredCount k d q : ℤ) - 1 then i + 1 else 0) ∧
      (Mention.handleSubmenuArrow k d q Mention.ArrowKey.up i =
        if 0 < i then i - 1 else (Mention.submenuFilteredCount k d q : ℤ) - 1)) ∧
    (Mention.submenuFilteredCount k d q = 0 →
      Mention.handleSubmenuArrow k d q key i = 0) := by
  constructor
  · intro hn hi0 hin
    set n := Mention.submenuFilteredCount k d q with hn_def
    have hne : ¬ n = 0 := by omega
    have hlast : max 0 ((n : ℤ) - 1) = (n : ℤ) - 1 := by
      rw [max_eq_right]
      omega
    constructor
    · simp only [Mention.handleSubmenuArrow, Mention.submenuArrowNext, hlast, if_neg hne]
      by_cases h : i < (n : ℤ) - 1
      · rw [if_neg (by omega), if_pos h]
      · rw [if_pos (by omega), if_neg h]
    · simp only [Mention.handleSubmenuArrow, Mention.submenuArrowNext, hlast, if_neg hne]
      by_cases h : 0 < i
      · rw [if_neg (by omega), if_pos h]
      · rw [if_pos (by omega), if_neg h]
  · intro hz
    simp only [Mention.handleSubmenuArrow, Mention.submenuArrowNext, hz, if_pos rfl]
    simp

/-- Witness for C7: the Chats submenu over two chats with the empty
query, active index 1. -/
theorem C7_submenu_arrow_wraps_witness :
    (1 ≤ Mention.submenuFilteredCount Mention.SubmenuKind.chats
        (Mention.MentionData.mk
          [Mention.ChatItem.mk "c1" (some "alpha"), Mention.ChatItem.mk "c2" none]
          [] [] [] [] [] []) "" → (0:ℤ) ≤ 1 →
      (1:ℤ) ≤ (Mention.submenuFilteredCount Mention.SubmenuKind.chats
        (Mention.MentionData.mk
          [Mention.ChatItem.mk "c1" (some "alpha"), Mention.ChatItem.mk "c2" none]
          [] [] [] [] [] []) "" : ℤ) - 1 →
      (Mention.handleSubmenuArrow Mention.SubmenuKind.chats
        (Mention.MentionData.mk
          [Mention.ChatItem.mk "c1" (some "alpha"), Mention.ChatItem.mk "c2" none]
          [] [] [] [] [] []) "" Mention.ArrowKey.down 1 =
        if (1:ℤ) < (Mention.submenuFilteredCount Mention.SubmenuKind.chats
          (Mention.MentionData.mk
            [Mention.ChatItem.mk "c1" (some "alpha"), Mention.ChatItem.mk "c2" none]
            [] [] [] [] [] []) "" : ℤ) - 1 then 1 + 1 else 0) ∧
      (Mention.handleSubmenuArrow Mention.SubmenuKind.chats
        (Mention.MentionData.mk
          [Mention.ChatItem.mk "c1" (some "alpha"), Mention.ChatItem.mk "c2" none]
          [] [] [] [] [] []) "" Mention.ArrowKey.up 1 =
        if (0:ℤ) < 1 then 1 - 1 else (Mention.submenuFilteredCount Mention.SubmenuKind.chats
          (Mention.MentionData.mk
            [Mention.ChatItem.mk "c1" (some "alpha"), Mention.ChatItem.mk "c2" none]
            [] [] [] [] [] []) "" : ℤ) - 1)) ∧
    (Mention.submenuFilteredCount Mention.SubmenuKind.chats
        (Mention.MentionData.mk
          [Mention.ChatItem.mk "c1" (some "alpha"), Mention.ChatItem.mk "c2" none]
          [] [] [] [] [] []) "" = 0 →
      Mention.handleSubmenuArrow Mention.SubmenuKind.chats
        (Mention.MentionData.mk
          [Mention.ChatItem.mk "c1" (some "alpha"), Mention.ChatItem.mk "c2" none]
          [] [] [] [] [] []) "" Mention.ArrowKey.down 1 = 0) :=
  C7_submenu_arrow_wraps Mention.SubmenuKind.chats
    (Mention.MentionData.mk
      [Mention.ChatItem.mk "c1" (some "alpha"), Mention.ChatItem.mk "c2" none]
      [] [] [] [] [] []) "" Mention.ArrowKey.down 1

namespace ExecUtils

/-! Embedding of getWorkflowExecutionContext / executeWorkflowWithLogging
(workflow selection and the layout-block filter).  mergeSubblockState and
the Serializer live outside this excerpt and are taken as parameters. -/

/-- The runtime shape of one entry of currentWorkflow.blocks as the
filter inspects it: block && typeof block === 'object' &&
'type' in block && block.type. -/
structure JSBlockVal where
  truthy : Bool
  isObject : Bool
  hasTypeField : Bool
  typeTruthy : Bool
  deriving DecidableEq

/-- The filter predicate of executeWorkflowWithLogging. -/
def isExecutableBlock (b : JSBlockVal) : Bool :=
  b.truthy && b.isObject && b.hasTypeField && b.typeTruthy

/-- A workflow state as consumed here: a block map (entry list in object
key order) plus opaque edges, loops and parallels. -/
structure WorkflowState (E L P : Type) where
  blocks : List (String × JSBlockVal)
  edges : E
  loops : L
  parallels : P

/-- The validBlocks reduce: entries kept in order when the block passes
the filter. -/
def validBlocks (blocks : List (String × JSBlockVal)) : List (String × JSBlockVal) :=
  blocks.foldl
    (fun acc entry => if isExecutableBlock entry.2 then acc ++ [entry] else acc)
    []

/-- hasDiffBlocks = !!diffWorkflow && Object.keys(diffWorkflow.blocks || {}).length > 0. -/
def hasDiffBlocks {E L P : Type} (diffWorkflow : Option (WorkflowState E L P)) : Bool :=
  match diffWorkflow with
  | some d => decide (0 < d.blocks.length)
  | none => false

/-- currentWorkflow = shouldUseDiff ? diffWorkflow : workflowState. -/
def getCurrentWorkflow {E L P : Type} (isShowingDiff isDiffReady : Bool)
    (diffWorkflow : Option (WorkflowState E L P))
    (workflowState : WorkflowState E L P) : WorkflowState E L P :=
  let shouldUseDiff := isShowingDiff && isDiffReady && hasDiffBlocks diffWorkflow
  if shouldUseDiff then diffWorkflow.getD workflowState else workflowState

/-- The four arguments handed to Serializer.serializeWorkflow. -/
structure SerializerInputs (M E L P : Type) where
  states : M
  edges : E
  loops : L
  parallels : P

/-- executeWorkflowWithLogging up to the serializeWorkflow call:
filteredStates = mergeSubblockState(validBlocks), edges, loops and
parallels taken from the current workflow unchanged. -/
def serializeCall {M E L P : Type}
    (mergeSubblockState : List (String × JSBlockVal) → M)
    (w : WorkflowState E L P) : SerializerInputs M E L P :=
  let validBlocksMap := validBlocks w.blocks
  let mergedStates := mergeSubblockState validBlocksMap
  let filteredStates := mergedStates
  let filteredEdges := w.edges
  { states := filteredStates, edges := filteredEdges,
    loops := w.loops, parallels := w.parallels }

theorem validBlocks_eq_filter (blocks : List (String × JSBlockVal)) :
    validBlocks blocks = blocks.filter (fun entry => isExecutableBlock entry.2) := by
  suffices h : ∀ (l : List (String × JSBlockVal)) (acc : List (String × JSBlockVal)),
      l.foldl (fun acc entry =>
        if isExecutableBlock entry.2 then acc ++ [entry] else acc) acc
        = acc ++ l.filter (fun entry => isExecutableBlock entry.2) by
    simpa using h blocks []
  intro l
  induction l with
  | nil => intro acc; simp
  | cons a t ih =>
    intro acc
    by_cases ha : isExecutableBlock a.2
    · simp only [List.foldl_cons, List.filter_cons, ha, if_pos, ih]
      simp [ih]
    · simp only [List.foldl_cons, List.filter_cons, ha, if_neg, ih]
      simp [ih, ha]

end ExecUtils

/-- C5: executeWorkflowWithLogging filters layout-only blocks and passes
the rest through.  The block map handed to mergeSubblockState (and with
it to serializeWorkflow) contains exactly the entries of the current
workflow whose value is a truthy object possessing a truthy type field,
in order; edges, loops and parallels are passed through unchanged; and
the current workflow is the diff workflow exactly when isShowingDiff and
isDiffReady hold and the diff workflow has at least one block, otherwise
the main workflow state. -/
theorem C5_execute_adapter {M E L P : Type}
    (mergeSubblockState : List (String × ExecUtils.JSBlockVal) → M)
    (isShowingDiff isDiffReady : Bool)
    (diffWorkflow : Option (ExecUtils.WorkflowState E L P))
    (workflowState : ExecUtils.WorkflowState E L P) :
    (ExecUtils.serializeCall mergeSubblockState
        (ExecUtils.getCurrentWorkflow isShowingDiff isDiffReady diffWorkflow workflowState)).states
      = mergeSubblockState
          ((ExecUtils.getCurrentWorkflow isShowingDiff isDiffReady diffWorkflow
              workflowState).blocks.filter
            (fun entry => ExecUtils.isExecutableBlock entry.2)) ∧
    (∀ entry, entry ∈ ExecUtils.validBlocks
        (ExecUtils.getCurrentWorkflow isShowingDiff isDiffReady diffWorkflow
          workflowState).blocks ↔
      (entry ∈ (ExecUtils.getCurrentWorkflow isShowingDiff isDiffReady diffWorkflow
          workflowState).blocks ∧ ExecUtils.isExecutableBlock entry.2 = true)) ∧
    (ExecUtils.serializeCall mergeSubblockState
        (ExecUtils.getCurrentWorkflow isShowingDiff isDiffReady diffWorkflow workflowState)).edges
      = (ExecUtils.getCurrentWorkflow isShowingDiff isDiffReady diffWorkflow
          workflowState).edges ∧
    (ExecUtils.serializeCall mergeSubblockState
        (ExecUtils.getCurrentWorkflow isShowingDiff isDiffReady diffWorkflow workflowState)).loops
      = (ExecUtils.getCurrentWorkflow isShowingDiff isDiffReady diffWorkflow
          workflowState).loops ∧
    (ExecUtils.serializeCall mergeSubblockState
        (ExecUtils.getCurrentWorkflow isShowingDiff isDiffReady diffWorkflow
          workflowState)).parallels
      = (ExecUtils.getCurrentWorkflow isShowingDiff isDiffReady diffWorkflow
          workflowState).parallels ∧
    ((isShowingDiff = true ∧ isDiffReady = true ∧
        (∃ d, diffWorkflow = some d ∧ d.blocks ≠ [])) →
      ∃ d, diffWorkflow = some d ∧
        ExecUtils.getCurrentWorkflow isShowingDiff isDiffReady diffWorkflow workflowState = d) ∧
    (¬ (isShowingDiff = true ∧ isDiffReady = true ∧
        (∃ d, diffWorkflow = some d ∧ d.blocks ≠ [])) →
      ExecUtils.getCurrentWorkflow isShowingDiff isDiffReady diffWorkflow workflowState
        = workflowState) := by
  refine ⟨?_, ?_, rfl, rfl, rfl, ?_, ?_⟩
  · simp only [ExecUtils.serializeCall, ExecUtils.validBlocks_eq_filter]
  · intro entry
    rw [ExecUtils.validBlocks_eq_filter, List.mem_filter]
  · rintro ⟨hs, hr, d, hd, hblocks⟩
    refine ⟨d, hd, ?_⟩
    simp only [ExecUtils.getCurrentWorkflow, hs, hr, hd, ExecUtils.hasDiffBlocks]
    have hlen : 0 < d.blocks.length := List.length_pos.mpr hblocks
    simp [hlen]
  · intro hnot
    simp only [ExecUtils.getCurrentWorkflow]
    cases hs : isShowingDiff with
    | false => simp
    | true =>
      cases hr : isDiffReady with
      | false => simp
      | true =>
        cases hd : diffWorkflow with
        | none => simp [ExecUtils.hasDiffBlocks]
        | some d =>
          have hblocks : d.blocks = [] := by
            by_contra hne
            exact hnot ⟨hs, hr, d, hd, hne⟩
          simp [ExecUtils.hasDiffBlocks, hblocks]

/-- Sample main workflow used by the C5 witness: one executable block
and one layout-only block. -/
def sampleMainWorkflow : ExecUtils.WorkflowState Nat Nat Nat :=
  ExecUtils.WorkflowState.mk
    [("b1", ExecUtils.JSBlockVal.mk true true true true),
     ("b2", ExecUtils.JSBlockVal.mk true true false false)] 1 2 3

/-- Empty diff-workflow option used by the C5 witness. -/
def sampleNoDiff : Option (ExecUtils.WorkflowState Nat Nat Nat) := none

/-- Witness for C5: one valid and one layout-only block in the main
workflow, no diff shown. -/
theorem C5_execute_adapter_witness :
    (ExecUtils.serializeCall (fun l => l)
        (ExecUtils.getCurrentWorkflow false false sampleNoDiff sampleMainWorkflow)).states
      = ((ExecUtils.getCurrentWorkflow false false sampleNoDiff
            sampleMainWorkflow).blocks.filter
          (fun entry => ExecUtils.isExecutableBlock entry.2)) ∧
    (∀ entry, entry ∈ ExecUtils.validBlocks
        (ExecUtils.getCurrentWorkflow false false sampleNoDiff sampleMainWorkflow).blocks ↔
      (entry ∈ (ExecUtils.getCurrentWorkflow false false sampleNoDiff
          sampleMainWorkflow).blocks ∧ ExecUtils.isExecutableBlock entry.2 = true)) ∧
    (ExecUtils.serializeCall (fun l => l)
        (ExecUtils.getCurrentWorkflow false false sampleNoDiff sampleMainWorkflow)).edges
      = (ExecUtils.getCurrentWorkflow false false sampleNoDiff sampleMainWorkflow).edges ∧
    (ExecUtils.serializeCall (fun l => l)
        (ExecUtils.getCurrentWorkflow false false sampleNoDiff sampleMainWorkflow)).loops
      = (ExecUtils.getCurrentWorkflow false false sampleNoDiff sampleMainWorkflow).loops ∧
    (ExecUtils.serializeCall (fun l => l)
        (ExecUtils.getCurrentWorkflow false false sampleNoDiff sampleMainWorkflow)).parallels
      = (ExecUtils.getCurrentWorkflow false false sampleNoDiff sampleMainWorkflow).parallels ∧
    ((false = true ∧ false = true ∧ (∃ d, sampleNoDiff = some d ∧ d.blocks ≠ [])) →
      ∃ d, sampleNoDiff = some d ∧
        ExecUtils.getCurrentWorkflow false false sampleNoDiff sampleMainWorkflow = d) ∧
    (¬ (false = true ∧ false = true ∧ (∃ d, sampleNoDiff = some d ∧ d.blocks ≠ [])) →
      ExecUtils.getCurrentWorkflow false false sampleNoDiff sampleMainWorkflow
        = sampleMainWorkflow) :=
  C5_execute_adapter (fun l => l) false false sampleNoDiff sampleMainWorkflow
